import Mathlib

/-!
Verification of the Affect Signal Stabilization and Conversational Context
Engine of the Emotional-Therapy application.

The definitions below are a shallow embedding of the two core modules:
  * `client/src/lib/faceApiLoader.ts` — model lifecycle flags, the bounded
    emotion-history window, `detectFacialEmotion`, `getStableEmotion`;
  * `client/src/lib/puterService.ts` — `formatPrompt`, `callPuterAI`,
    `getEmotionalSupportResponse`.
Confidences are modelled as rationals; asynchronous behaviour of the remote
chat call is modelled by an explicit behaviour datatype; the module-level
mutable flags and the history array are modelled by explicit state passing.
-/

/-- Facial emotion labels, the closed set used by the application
(`Emotion` in the shared types module; the facial vocabulary is
{neutral, happy, sad, angry, fearful, disgusted, surprised}). -/
inductive Emotion where
  | neutral
  | happy
  | sad
  | angry
  | fearful
  | disgusted
  | surprised
deriving DecidableEq, Fintype

/-- One admitted sample of the emotion history: an entry
`{emotion, confidence, timestamp}` as pushed by `detectFacialEmotion`. -/
structure Sample where
  emotion : Emotion
  confidence : ℚ
  timestamp : ℕ
deriving DecidableEq

/-- `HISTORY_LENGTH` constant of faceApiLoader.ts. -/
def HISTORY_LENGTH : ℕ := 5

/-- `MIN_CONFIDENCE` constant of faceApiLoader.ts (0.2). -/
def MIN_CONFIDENCE : ℚ := 2/10

/-- Number of occurrences of label `e` in the history window; the final
value stored for key `e` in the `emotionCounts` map of `getStableEmotion`. -/
def countOf (hist : List Sample) (e : Emotion) : ℕ :=
  (hist.filter (fun s => s.emotion == e)).length

/-- The distinct emotion labels of the window in first-occurrence order:
the key set of the JavaScript `Map` built by `getStableEmotion`, in its
insertion order (a JS `Map` iterates keys in insertion order). -/
def distinctLabels (hist : List Sample) : List Emotion :=
  hist.foldl (fun acc s => if s.emotion ∈ acc then acc else acc ++ [s.emotion]) []

/-- Sum of the confidences of all entries of the window
(`totalConfidence` accumulator of `getStableEmotion`). -/
def totalConfidence (hist : List Sample) : ℚ :=
  hist.foldl (fun acc s => acc + s.confidence) 0

/-- The `emotionCounts.forEach` maximum-selection loop of `getStableEmotion`:
starting from `maxCount = 0`, `stableEmotion = null`, it replaces the pair
whenever a label's count is strictly greater than the running maximum. -/
def selectLoop (f : Emotion → ℕ) (labels : List Emotion) (p : ℕ × Option Emotion) :
    ℕ × Option Emotion :=
  labels.foldl (fun q e => if f e > q.1 then (f e, some e) else q) p

/-- `Math.ceil(n / 2)` for a natural `n`. -/
def ceilHalf (n : ℕ) : ℕ := (n + 1) / 2

/-- `getStableEmotion` of faceApiLoader.ts, as a function of the current
emotion-history window: `null` below 3 samples, otherwise the most frequent
label (selection loop over the count map) provided it meets the
`ceil(length/2)` quorum, paired with the mean confidence of all entries. -/
def getStableEmotion (hist : List Sample) : Option (Emotion × ℚ) :=
  if hist.length < 3 then none
  else
    match selectLoop (countOf hist) (distinctLabels hist) (0, none) with
    | (maxCount, some e) =>
        if ceilHalf hist.length ≤ maxCount then
          some (e, totalConfidence hist / hist.length)
        else none
    | (_, none) => none

/-- The `emotionMap` lookup table of `detectFacialEmotion`: classifier
expression names mapped to `Emotion`; unknown keys are absent (falsy). -/
def emotionMap : String → Option Emotion
  | "neutral" => some Emotion.neutral
  | "happy" => some Emotion.happy
  | "sad" => some Emotion.sad
  | "angry" => some Emotion.angry
  | "fearful" => some Emotion.fearful
  | "disgusted" => some Emotion.disgusted
  | "surprised" => some Emotion.surprised
  | _ => none

/-- The dominant-expression loop of `detectFacialEmotion`: starting from
`maxConfidence = 0`, `dominantEmotion = neutral`, take each `(name, confidence)`
entry whose confidence strictly exceeds the running maximum and whose name is
a key of `emotionMap`. -/
def dominantExpression (exprs : List (String × ℚ)) : Emotion × ℚ :=
  exprs.foldl
    (fun p ec =>
      match emotionMap ec.1 with
      | some e => if ec.2 > p.2 then (e, ec.2) else p
      | none => p)
    (Emotion.neutral, 0)

/-- The push of a new sample into `emotionHistory`: append, then `shift()`
(drop the oldest) when the length exceeds `HISTORY_LENGTH`. -/
def pushEvict (hist : List Sample) (s : Sample) : List Sample :=
  if HISTORY_LENGTH < (hist ++ [s]).length then (hist ++ [s]).drop 1 else hist ++ [s]

/-- `detectFacialEmotion` of faceApiLoader.ts, from the admission gate on:
`loaded` is the `modelsLoaded` flag (with the `!video` guard folded in),
`detection` is the face-api result (`none` for "no face found" or a thrown
detection error, both of which return `null` with the history untouched),
`now` the timestamp. Returns the updated history and the returned value. -/
def detectFacialEmotion (loaded : Bool) (detection : Option (List (String × ℚ)))
    (now : ℕ) (hist : List Sample) : List Sample × Option Sample :=
  if loaded = false then (hist, none)
  else
    match detection with
    | none => (hist, none)
    | some exprs =>
        let d := dominantExpression exprs
        if d.2 < MIN_CONFIDENCE then (hist, none)
        else
          let result : Sample := ⟨d.1, d.2, now⟩
          (pushEvict hist result, some result)

/-! ### Auxiliary lemmas about the selection loop and the label set -/

theorem selectLoop_nil (f : Emotion → ℕ) (p : ℕ × Option Emotion) :
    selectLoop f [] p = p := rfl

theorem selectLoop_cons (f : Emotion → ℕ) (x : Emotion) (L : List Emotion)
    (p : ℕ × Option Emotion) :
    selectLoop f (x :: L) p = selectLoop f L (if p.1 < f x then (f x, some x) else p) := by
  simp only [selectLoop, List.foldl_cons, gt_iff_lt]

theorem selectLoop_skip (f : Emotion → ℕ) (L : List Emotion) (p : ℕ × Option Emotion)
    (h : ∀ x ∈ L, f x ≤ p.1) : selectLoop f L p = p := by
  induction L with
  | nil => rfl
  | cons a L ih =>
    have ha : ¬ p.1 < f a := by
      have := h a (List.mem_cons_self a L)
      omega
    rw [selectLoop_cons, if_neg ha]
    exact ih (fun x hx => h x (List.mem_cons_of_mem a hx))

theorem selectLoop_first_max (f : Emotion → ℕ) (L1 L2 : List Emotion) (e : Emotion)
    (h2 : ∀ x ∈ L2, f x ≤ f e) :
    ∀ p : ℕ × Option Emotion, (∀ x ∈ L1, f x < f e) → p.1 < f e →
      selectLoop f (L1 ++ e :: L2) p = (f e, some e) := by
  induction L1 with
  | nil =>
    intro p _ hp
    rw [List.nil_append, selectLoop_cons, if_pos hp]
    exact selectLoop_skip f L2 (f e, some e) h2
  | cons a L1 ih =>
    intro p h1 hp
    rw [List.cons_append, selectLoop_cons]
    by_cases hc : p.1 < f a
    · rw [if_pos hc]
      exact ih _ (fun x hx => h1 x (List.mem_cons_of_mem a hx))
        (h1 a (List.mem_cons_self a L1))
    · rw [if_neg hc]
      exact ih _ (fun x hx => h1 x (List.mem_cons_of_mem a hx)) hp

theorem selectLoop_sound (f : Emotion → ℕ) (L : List Emotion) (p : ℕ × Option Emotion)
    (hp : ∀ a, p.2 = some a → p.1 = f a) :
    ∀ a, (selectLoop f L p).2 = some a → (selectLoop f L p).1 = f a := by
  induction L generalizing p with
  | nil => exact hp
  | cons x L ih =>
    rw [selectLoop_cons]
    by_cases hc : p.1 < f x
    · rw [if_pos hc]
      refine ih _ ?_
      intro a ha
      simp only at ha
      rw [Option.some_inj] at ha
      rw [← ha]
    · rw [if_neg hc]
      exact ih _ hp

theorem mem_distinctLabels_iff (hist : List Sample) (acc : List Emotion) (e : Emotion) :
    e ∈ hist.foldl (fun acc s => if s.emotion ∈ acc then acc else acc ++ [s.emotion]) acc ↔
      e ∈ acc ∨ ∃ s ∈ hist, s.emotion = e := by
  induction hist generalizing acc with
  | nil => simp
  | cons a hist ih =>
    rw [List.foldl_cons, ih]
    by_cases hc : a.emotion ∈ acc
    · rw [if_pos hc]
      constructor
      · rintro (h | ⟨s, hs, he⟩)
        · exact Or.inl h
        · exact Or.inr ⟨s, List.mem_cons_of_mem a hs, he⟩
      · rintro (h | ⟨s, hs, he⟩)
        · exact Or.inl h
        · rcases List.mem_cons.mp hs with h1 | h1
          · exact Or.inl (by rw [← he, h1]; exact hc)
          · exact Or.inr ⟨s, h1, he⟩
    · rw [if_neg hc]
      constructor
      · rintro (h | ⟨s, hs, he⟩)
        · rcases List.mem_append.mp h with h1 | h1
          · exact Or.inl h1
          · exact Or.inr ⟨a, List.mem_cons_self a hist, (List.mem_singleton.mp h1).symm⟩
        · exact Or.inr ⟨s, List.mem_cons_of_mem a hs, he⟩
      · rintro (h | ⟨s, hs, he⟩)
        · exact Or.inl (List.mem_append.mpr (Or.inl h))
        · rcases List.mem_cons.mp hs with h1 | h1
          · exact Or.inl (List.mem_append.mpr
              (Or.inr (List.mem_singleton.mpr (by rw [← he, h1]))))
          · exact Or.inr ⟨s, h1, he⟩

theorem distinctLabels_nodup (hist : List Sample) : (distinctLabels hist).Nodup := by
  suffices h : ∀ acc : List Emotion, acc.Nodup →
      (hist.foldl (fun acc s => if s.emotion ∈ acc then acc else acc ++ [s.emotion]) acc).Nodup by
    exact h [] List.nodup_nil
  induction hist with
  | nil => exact fun acc h => h
  | cons a hist ih =>
    intro acc hacc
    rw [List.foldl_cons]
    by_cases hc : a.emotion ∈ acc
    · rw [if_pos hc]
      exact ih acc hacc
    · rw [if_neg hc]
      refine ih _ ?_
      simp [List.nodup_append, hacc, hc]

theorem mem_distinctLabels_of_countOf_pos (hist : List Sample) (e : Emotion)
    (h : 0 < countOf hist e) : e ∈ distinctLabels hist := by
  rw [countOf] at h
  rw [List.length_pos] at h
  obtain ⟨s, hs⟩ := List.exists_mem_of_ne_nil _ h
  rw [List.mem_filter] at hs
  rw [distinctLabels, mem_distinctLabels_iff]
  exact Or.inr ⟨s, hs.1, by simpa using hs.2⟩

theorem getStableEmotion_of_first_max (hist : List Sample) (L1 L2 : List Emotion)
    (e : Emotion) (h3 : 3 ≤ hist.length) (hsplit : distinctLabels hist = L1 ++ e :: L2)
    (h1 : ∀ x ∈ L1, countOf hist x < countOf hist e)
    (h2 : ∀ x ∈ L2, countOf hist x ≤ countOf hist e)
    (hq : ceilHalf hist.length ≤ countOf hist e) :
    getStableEmotion hist = some (e, totalConfidence hist / hist.length) := by
  have hpos : 0 < countOf hist e := by
    have h2le : 2 ≤ ceilHalf hist.length := by
      rw [ceilHalf]; omega
    omega
  have hsel : selectLoop (countOf hist) (distinctLabels hist) (0, none) =
      (countOf hist e, some e) := by
    rw [hsplit]
    exact selectLoop_first_max _ L1 L2 e h2 _ h1 hpos
  rw [getStableEmotion, if_neg (by omega), hsel]
  simp only [if_pos hq]

/-! ### Claims about the stable-emotion verdict -/

/-- C1: `getStableEmotion` returns null for every window of fewer than 3
admitted samples; for a window of at least 3 samples it returns null when no
label reaches the `ceil(length/2)` quorum, and when a strict-majority label
meets the quorum it returns that label paired with the arithmetic mean of the
confidences of all entries of the window; in particular the window
`[happy@0.9, happy@0.8, sad@0.3]` yields `happy` with confidence
`(0.9 + 0.8 + 0.3) / 3`. -/
theorem claim_C1_stable_verdict :
    (∀ hist : List Sample, hist.length < 3 → getStableEmotion hist = none) ∧
    (∀ hist : List Sample, 3 ≤ hist.length →
      (∀ x : Emotion, countOf hist x < ceilHalf hist.length) →
      getStableEmotion hist = none) ∧
    (∀ (hist : List Sample) (e : Emotion), 3 ≤ hist.length →
      (∀ x : Emotion, x ≠ e → countOf hist x < countOf hist e) →
      ceilHalf hist.length ≤ countOf hist e →
      getStableEmotion hist = some (e, totalConfidence hist / hist.length)) ∧
    getStableEmotion
        [⟨Emotion.happy, 9/10, 0⟩, ⟨Emotion.happy, 8/10, 1⟩, ⟨Emotion.sad, 3/10, 2⟩] =
      some (Emotion.happy, (9/10 + 8/10 + 3/10) / 3) := by
  refine ⟨?_, ?_, ?_, ?_⟩
  · intro hist h
    rw [getStableEmotion, if_pos h]
  · intro hist h3 hlt
    rw [getStableEmotion, if_neg (by omega)]
    rcases hsel : selectLoop (countOf hist) (distinctLabels hist) (0, none) with ⟨mc, _ | e⟩
    · rfl
    · have hval := selectLoop_sound (countOf hist) (distinctLabels hist) (0, none)
        (fun a ha => by cases ha) e (by rw [hsel])
      rw [hsel] at hval
      simp only at hval
      have : ¬ ceilHalf hist.length ≤ mc := by
        rw [hval]
        exact Nat.not_le.mpr (hlt e)
      simp only [if_neg this]
  · intro hist e h3 hmaj hq
    have hpos : 0 < countOf hist e := by
      have h2le : 2 ≤ ceilHalf hist.length := by
        rw [ceilHalf]; omega
      omega
    have hmem : e ∈ distinctLabels hist := mem_distinctLabels_of_countOf_pos hist e hpos
    obtain ⟨L1, L2, hsplit⟩ := List.append_of_mem hmem
    have hnd := distinctLabels_nodup hist
    rw [hsplit] at hnd
    have heL1 : e ∉ L1 := fun h =>
      (List.nodup_append.mp hnd).2.2 h (List.mem_cons_self e L2)
    exact getStableEmotion_of_first_max hist L1 L2 e h3 hsplit
      (fun x hx => hmaj x (fun hxe => heL1 (hxe ▸ hx)))
      (fun x hx => by
        by_cases hxe : x = e
        · rw [hxe]
        · exact le_of_lt (hmaj x hxe))
      hq
  · simp [getStableEmotion, selectLoop, distinctLabels, countOf, totalConfidence, ceilHalf]

/-- Witness for C1: the three hypothesis-bearing conjuncts applied at concrete
windows — a single sample (no verdict), three pairwise-distinct labels (no
quorum), and the two-out-of-three `happy` window (verdict with mean
confidence). -/
theorem claim_C1_stable_verdict_witness :
    getStableEmotion [⟨Emotion.happy, 1/2, 0⟩] = none ∧
    getStableEmotion
        [⟨Emotion.happy, 1/2, 0⟩, ⟨Emotion.sad, 1/2, 1⟩, ⟨Emotion.angry, 1/2, 2⟩] = none ∧
    getStableEmotion
        [⟨Emotion.happy, 9/10, 0⟩, ⟨Emotion.happy, 8/10, 1⟩, ⟨Emotion.sad, 3/10, 2⟩] =
      some (Emotion.happy,
        totalConfidence
            [⟨Emotion.happy, 9/10, 0⟩, ⟨Emotion.happy, 8/10, 1⟩, ⟨Emotion.sad, 3/10, 2⟩] /
          ((3 : ℕ) : ℚ)) :=
  ⟨claim_C1_stable_verdict.1 _ (by decide),
   claim_C1_stable_verdict.2.1 _ (by decide) (by decide),
   claim_C1_stable_verdict.2.2.1 _ Emotion.happy (by decide) (by decide) (by decide)⟩

/-- A four-sample window in which `sad` and `happy` are tied at two
occurrences each and `happy` is the most recent occurrence among the tie
participants. -/
def tieWindow : List Sample :=
  [⟨Emotion.sad, 1/2, 0⟩, ⟨Emotion.happy, 1/2, 1⟩,
   ⟨Emotion.sad, 1/2, 2⟩, ⟨Emotion.happy, 1/2, 3⟩]

/-- Counterexample to C2: on `tieWindow` the labels `sad` and `happy` are tied
for the highest occurrence count and — iterating the window oldest to newest —
`happy` is the tie participant occurring last, yet `getStableEmotion` returns
`sad`, the tie participant whose first occurrence comes earliest. -/
theorem claim_C2_counterexample :
    countOf tieWindow Emotion.happy = countOf tieWindow Emotion.sad ∧
    (∀ x : Emotion, countOf tieWindow x ≤ countOf tieWindow Emotion.happy) ∧
    (tieWindow.map Sample.emotion).getLast? = some Emotion.happy ∧
    getStableEmotion tieWindow = some (Emotion.sad, 1/2) ∧
    Emotion.sad ≠ Emotion.happy := by
  refine ⟨by decide, by decide, by decide, ?_, by decide⟩
  simp [tieWindow, getStableEmotion, selectLoop, distinctLabels, countOf,
    totalConfidence, ceilHalf]
  norm_num

/-- C2 (amended): when labels are tied for the highest occurrence count, the
tie is broken by *earliest first occurrence*: writing the window's distinct
labels in first-occurrence order (the insertion order of the count map) as
`L1 ++ e :: L2`, if `e` strictly beats every label whose first occurrence is
earlier and at least ties every label whose first occurrence is later, and `e`
meets the quorum, then `e` is the verdict. -/
theorem claim_C2_tie_break :
    ∀ (hist : List Sample) (L1 L2 : List Emotion) (e : Emotion),
      3 ≤ hist.length →
      distinctLabels hist = L1 ++ e :: L2 →
      (∀ x ∈ L1, countOf hist x < countOf hist e) →
      (∀ x ∈ L2, countOf hist x ≤ countOf hist e) →
      ceilHalf hist.length ≤ countOf hist e →
      getStableEmotion hist = some (e, totalConfidence hist / hist.length) :=
  fun hist L1 L2 e h3 hsplit h1 h2 hq =>
    getStableEmotion_of_first_max hist L1 L2 e h3 hsplit h1 h2 hq

/-- Witness for the amended C2, at the tied window: `sad` is first in
first-occurrence order, ties `happy`, meets the quorum, and wins. -/
theorem claim_C2_tie_break_witness :
    getStableEmotion tieWindow =
      some (Emotion.sad, totalConfidence tieWindow / ((4 : ℕ) : ℚ)) :=
  claim_C2_tie_break tieWindow [] [Emotion.happy] Emotion.sad (by decide)
    (by decide) (by decide) (by decide) (by decide)

/-! ### Claims about sample admission and the window capacity -/

/-- C6: a frame whose dominant expression has confidence strictly below the
0.2 floor is never admitted: `detectFacialEmotion` returns null, the emotion
history is unchanged, and hence the stable verdict is unchanged by that
frame. -/
theorem claim_C6_confidence_floor :
    ∀ (loaded : Bool) (exprs : List (String × ℚ)) (now : ℕ) (hist : List Sample),
      (dominantExpression exprs).2 < MIN_CONFIDENCE →
      detectFacialEmotion loaded (some exprs) now hist = (hist, none) ∧
      getStableEmotion (detectFacialEmotion loaded (some exprs) now hist).1 =
        getStableEmotion hist := by
  intro loaded exprs now hist hlow
  have hmain : detectFacialEmotion loaded (some exprs) now hist = (hist, none) := by
    cases loaded with
    | false => rfl
    | true =>
      rw [detectFacialEmotion]
      simp only [Bool.true_eq_false, if_false, if_pos hlow]
  exact ⟨hmain, by rw [hmain]⟩

/-- Witness for C6: a frame whose only expression is `happy` at confidence
0.1 leaves a three-sample history and its verdict untouched. -/
theorem claim_C6_confidence_floor_witness :
    detectFacialEmotion true (some [("happy", 1/10)]) 3
        [⟨Emotion.happy, 1/2, 0⟩, ⟨Emotion.happy, 1/2, 1⟩, ⟨Emotion.sad, 1/2, 2⟩] =
      ([⟨Emotion.happy, 1/2, 0⟩, ⟨Emotion.happy, 1/2, 1⟩, ⟨Emotion.sad, 1/2, 2⟩], none) ∧
    getStableEmotion
        (detectFacialEmotion true (some [("happy", 1/10)]) 3
          [⟨Emotion.happy, 1/2, 0⟩, ⟨Emotion.happy, 1/2, 1⟩, ⟨Emotion.sad, 1/2, 2⟩]).1 =
      getStableEmotion
        [⟨Emotion.happy, 1/2, 0⟩, ⟨Emotion.happy, 1/2, 1⟩, ⟨Emotion.sad, 1/2, 2⟩] :=
  claim_C6_confidence_floor true [("happy", 1/10)] 3
    [⟨Emotion.happy, 1/2, 0⟩, ⟨Emotion.happy, 1/2, 1⟩, ⟨Emotion.sad, 1/2, 2⟩]
    (by norm_num [dominantExpression, emotionMap, MIN_CONFIDENCE])

/-- C7: the emotion history is a fixed-capacity FIFO of capacity 5: if the
history holds at most 5 samples before a call, it holds at most 5 after any
completed `detectFacialEmotion` call; a push into a full window evicts exactly
the oldest sample and preserves the arrival order of the rest, and a push into
a non-full window appends without eviction. -/
theorem claim_C7_window_capacity :
    ∀ (loaded : Bool) (detection : Option (List (String × ℚ))) (now : ℕ)
      (hist : List Sample),
      hist.length ≤ HISTORY_LENGTH →
      (detectFacialEmotion loaded detection now hist).1.length ≤ HISTORY_LENGTH ∧
      (∀ s, hist.length = HISTORY_LENGTH → pushEvict hist s = hist.drop 1 ++ [s]) ∧
      (∀ s, hist.length < HISTORY_LENGTH → pushEvict hist s = hist ++ [s]) := by
  intro loaded detection now hist hlen
  simp only [HISTORY_LENGTH] at hlen ⊢
  have hpush : ∀ s, (pushEvict hist s).length ≤ 5 := by
    intro s
    rw [pushEvict]
    split <;> rename_i h <;>
      simp only [HISTORY_LENGTH, List.length_drop, List.length_append,
        List.length_singleton] at h ⊢ <;> omega
  refine ⟨?_, ?_, ?_⟩
  · cases loaded with
    | false => exact hlen
    | true =>
      cases detection with
      | none => exact hlen
      | some exprs =>
        by_cases hc : (dominantExpression exprs).2 < MIN_CONFIDENCE
        · simp only [detectFacialEmotion, Bool.true_eq_false, if_false, if_pos hc]
          exact hlen
        · simp only [detectFacialEmotion, Bool.true_eq_false, if_false, if_neg hc]
          exact hpush _
  · intro s hfull
    rw [pushEvict, if_pos]
    · exact List.drop_append_of_le_length (by omega)
    · simp only [HISTORY_LENGTH, List.length_append, List.length_singleton]
      omega
  · intro s hlt
    rw [pushEvict, if_neg]
    simp only [HISTORY_LENGTH, List.length_append, List.length_singleton]
    omega

/-- Witness for C7: a full five-sample window stays at five samples when an
admitted frame arrives, and the push evicts exactly the oldest entry. -/
theorem claim_C7_window_capacity_witness :
    (detectFacialEmotion true (some [("happy", 9/10)]) 5
        [⟨Emotion.sad, 1/2, 0⟩, ⟨Emotion.sad, 1/2, 1⟩, ⟨Emotion.sad, 1/2, 2⟩,
         ⟨Emotion.sad, 1/2, 3⟩, ⟨Emotion.sad, 1/2, 4⟩]).1.length ≤ HISTORY_LENGTH ∧
    pushEvict
        [⟨Emotion.sad, 1/2, 0⟩, ⟨Emotion.sad, 1/2, 1⟩, ⟨Emotion.sad, 1/2, 2⟩,
         ⟨Emotion.sad, 1/2, 3⟩, ⟨Emotion.sad, 1/2, 4⟩] ⟨Emotion.happy, 9/10, 5⟩ =
      [⟨Emotion.sad, 1/2, 0⟩, ⟨Emotion.sad, 1/2, 1⟩, ⟨Emotion.sad, 1/2, 2⟩,
         ⟨Emotion.sad, 1/2, 3⟩, ⟨Emotion.sad, 1/2, 4⟩].drop 1 ++
        [⟨Emotion.happy, 9/10, 5⟩] :=
  ⟨(claim_C7_window_capacity true (some [("happy", 9/10)]) 5
      [⟨Emotion.sad, 1/2, 0⟩, ⟨Emotion.sad, 1/2, 1⟩, ⟨Emotion.sad, 1/2, 2⟩,
       ⟨Emotion.sad, 1/2, 3⟩, ⟨Emotion.sad, 1/2, 4⟩] (by decide)).1,
   (claim_C7_window_capacity true (some [("happy", 9/10)]) 5
      [⟨Emotion.sad, 1/2, 0⟩, ⟨Emotion.sad, 1/2, 1⟩, ⟨Emotion.sad, 1/2, 2⟩,
       ⟨Emotion.sad, 1/2, 3⟩, ⟨Emotion.sad, 1/2, 4⟩] (by decide)).2.1
     ⟨Emotion.happy, 9/10, 5⟩ (by decide)⟩

/-! ### Model lifecycle manager (`loadFaceModel` of faceApiLoader.ts) -/

/-- The module-level flags of faceApiLoader.ts: `modelsLoaded` and
`isModelLoading`. -/
structure FaceState where
  modelsLoaded : Bool
  isModelLoading : Bool
deriving DecidableEq

/-- The synchronous prefix of `loadFaceModel`, up to the first `await`: the
`if (modelsLoaded || isModelLoading) return` guard, and on fall-through the
assignment `isModelLoading = true` before the loader is invoked. The returned
Boolean records whether the underlying loader (the three `loadFromUri` calls)
is invoked by this call. -/
def loadFaceModelStart (s : FaceState) : FaceState × Bool :=
  if s.modelsLoaded || s.isModelLoading then (s, false)
  else (⟨s.modelsLoaded, true⟩, true)

/-- The completion of a full `loadFaceModel` run: on success `modelsLoaded`
is set to true, in the catch branch it is set to false, and the finally
branch clears `isModelLoading` in both cases. `success` tells whether all
three model loads resolved without error. -/
def loadFaceModelFinish (_s : FaceState) (success : Bool) : FaceState :=
  ⟨success, false⟩

/-- One complete, non-interleaved invocation of `loadFaceModel`: the guard,
then — only if the loader was invoked — the load itself and the finish.
Returns the final state and the number of underlying load operations this
invocation triggered. -/
def loadFaceModel (s : FaceState) (success : Bool) : FaceState × ℕ :=
  if (loadFaceModelStart s).2 then (loadFaceModelFinish (loadFaceModelStart s).1 success, 1)
  else ((loadFaceModelStart s).1, 0)

/-! ### Claims about the model lifecycle -/

/-- C5: the guard makes loads single-flight: from an unloaded, not-loading
state the first call invokes the loader and a second call arriving while the
first is still in flight (i.e. after its synchronous prefix set
`isModelLoading`, before its finish) does not, so the two concurrent calls
trigger exactly one underlying load; and once the models are loaded a
redundant call returns immediately without invoking the loader or changing
the state. -/
theorem claim_C5_single_flight :
    ∀ (s : FaceState) (success : Bool),
      (s.modelsLoaded = false → s.isModelLoading = false →
        (loadFaceModelStart s).2 = true ∧
        (loadFaceModelStart (loadFaceModelStart s).1).2 = false ∧
        (if (loadFaceModelStart s).2 then 1 else 0) +
            (if (loadFaceModelStart (loadFaceModelStart s).1).2 then 1 else 0) = 1) ∧
      (s.modelsLoaded = true → loadFaceModel s success = (s, 0)) := by
  intro s success
  obtain ⟨ml, il⟩ := s
  constructor
  · intro hml hil
    subst hml; subst hil
    refine ⟨rfl, rfl, rfl⟩
  · intro hml
    subst hml
    rfl

/-- Witness for C5: from the initial state both conjuncts are discharged at
a concrete state and load outcome. -/
theorem claim_C5_single_flight_witness :
    ((loadFaceModelStart ⟨false, false⟩).2 = true ∧
      (loadFaceModelStart (loadFaceModelStart ⟨false, false⟩).1).2 = false ∧
      (if (loadFaceModelStart ⟨false, false⟩).2 then 1 else 0) +
          (if (loadFaceModelStart (loadFaceModelStart ⟨false, false⟩).1).2 then 1 else 0) =
        1) ∧
    loadFaceModel ⟨true, false⟩ true = (⟨true, false⟩, 0) :=
  ⟨(claim_C5_single_flight ⟨false, false⟩ true).1 rfl rfl,
   (claim_C5_single_flight ⟨true, false⟩ true).2 rfl⟩

/-- C10: an invocation of `loadFaceModel` that starts while no other load is
in flight always ends with `isModelLoading = false`; if it invoked the loader,
`modelsLoaded` afterwards equals the load outcome, and if it did not, the
state is unchanged; in particular after a failed load the state is
`(modelsLoaded = false, isModelLoading = false)` and a subsequent call invokes
the loader again rather than staying wedged. -/
theorem claim_C10_no_wedge :
    ∀ (s : FaceState) (success : Bool),
      s.isModelLoading = false →
      ((loadFaceModel s success).1.isModelLoading = false ∧
        ((loadFaceModel s success).2 = 1 →
          (loadFaceModel s success).1.modelsLoaded = success) ∧
        ((loadFaceModel s success).2 = 0 → (loadFaceModel s success).1 = s) ∧
        ((loadFaceModel s success).1.modelsLoaded = false →
          (loadFaceModelStart (loadFaceModel s success).1).2 = true)) := by
  intro s success hil
  obtain ⟨ml, il⟩ := s
  subst hil
  cases ml <;> cases success <;> decide

/-- Witness for C10: a failed load from the initial state leaves both flags
false, reports the outcome, and a retry would invoke the loader. -/
theorem claim_C10_no_wedge_witness :
    (loadFaceModel ⟨false, false⟩ false).1.isModelLoading = false ∧
    ((loadFaceModel ⟨false, false⟩ false).2 = 1 →
      (loadFaceModel ⟨false, false⟩ false).1.modelsLoaded = false) ∧
    ((loadFaceModel ⟨false, false⟩ false).2 = 0 →
      (loadFaceModel ⟨false, false⟩ false).1 = ⟨false, false⟩) ∧
    ((loadFaceModel ⟨false, false⟩ false).1.modelsLoaded = false →
      (loadFaceModelStart (loadFaceModel ⟨false, false⟩ false).1).2 = true) :=
  claim_C10_no_wedge ⟨false, false⟩ false rfl

/-! ### The Puter.js integration service (`puterService.ts`) -/

/-- Message roles of the conversation history (`'user' | 'assistant'`). -/
inductive Role where
  | user
  | assistant
deriving DecidableEq

/-- `role.toUpperCase()` as used when rendering a history entry. -/
def roleUpper : Role → String
  | Role.user => "USER"
  | Role.assistant => "ASSISTANT"

/-- One entry of `previousMessages`: `{role, content}`. -/
structure ChatMessage where
  role : Role
  content : String
deriving DecidableEq

/-- The age brackets of `PromptParams.ageGroup`. -/
inductive AgeGroup where
  | children
  | teenagers
  | adults
deriving DecidableEq

/-- Vocal tone labels; in the sources they are string literals threaded
through `detected.toneOfVoice` and rendered verbatim into the prompt. -/
abbrev VocalTone := String

/-- The `detected` bag of `PromptParams`: optional emotion and tone. -/
structure DetectedState where
  emotion : Option Emotion
  toneOfVoice : Option VocalTone
deriving DecidableEq

/-- The `PromptParams` interface of puterService.ts. -/
structure PromptParams where
  message : String
  detected : DetectedState
  ageGroup : AgeGroup
  previousMessages : List ChatMessage

/-- The `message` field of a `PuterAIResponse`. -/
structure ResponseMessage where
  content : String
  role : String
deriving DecidableEq

/-- The shape of a response of `window.puter.ai.chat`. -/
structure PuterAIResponse where
  message : ResponseMessage
deriving DecidableEq

/-- The `DEFAULT_SYSTEM_MESSAGE` template literal of puterService.ts. -/
def DEFAULT_SYSTEM_MESSAGE : String :=
  "\nYou are a compassionate AI mental health assistant. Your responses should be:\n- Empathetic and supportive, showing understanding of emotions\n- Non-judgmental and respectful of all experiences\n- Clear and concise, using accessible language\n- Informative about general mental health concepts when appropriate\n- Careful to never diagnose or prescribe treatment\n- Honest about your limitations as an AI assistant\n\nImportant: Always remind users that you're an AI tool meant for emotional support,\nnot a replacement for professional mental health services. If they appear to be in \ndistress or seeking medical/psychological advice, gently encourage them to speak \nwith a qualified professional.\n"

/-- The age modifier appended for the `children` age group. -/
def CHILDREN_GUIDANCE : String :=
  "\nThe user is a child, so use simple language, short sentences, and concrete examples. Be patient, encouraging, and use a warm, friendly tone."

/-- The age modifier appended for the `teenagers` age group. -/
def TEENAGER_GUIDANCE : String :=
  "\nThe user is a teenager, so use accessible language but don't oversimplify. Be genuine, avoid talking down, and acknowledge their capacity for complex emotions."

/-- The lowercase name of an emotion label, as interpolated into the
detected-state block of the prompt. -/
def emotionLabel : Emotion → String
  | Emotion.neutral => "neutral"
  | Emotion.happy => "happy"
  | Emotion.sad => "sad"
  | Emotion.angry => "angry"
  | Emotion.fearful => "fearful"
  | Emotion.disgusted => "disgusted"
  | Emotion.surprised => "surprised"

/-- The age-appropriate guidance appended by `formatPrompt`: a fixed string
for children and for teenagers, nothing for adults. -/
def ageSegment : AgeGroup → String
  | AgeGroup.children => CHILDREN_GUIDANCE
  | AgeGroup.teenagers => TEENAGER_GUIDANCE
  | AgeGroup.adults => ""

/-- The detected-user-state block appended by `formatPrompt` when an emotion
or a tone of voice was detected. -/
def detectedSegment (d : DetectedState) : String :=
  if d.emotion.isSome || d.toneOfVoice.isSome then
    "\n\nDetected user state:"
      ++ (match d.emotion with
          | some e =>
              "\n- Facial expression suggests they may be feeling \""
                ++ emotionLabel e ++ "\""
          | none => "")
      ++ (match d.toneOfVoice with
          | some t =>
              "\n- Voice tone suggests they may be feeling \"" ++ t ++ "\""
          | none => "")
      ++ "\n\nRespond with awareness of their emotional state, but don't explicitly mention that you're analyzing their emotions unless they ask."
  else ""

/-- `previousMessages.slice(-10)` followed by `reverse()`: the most recent
ten history entries, most recent first. -/
def recentMessages (msgs : List ChatMessage) : List ChatMessage :=
  (msgs.drop (msgs.length - 10)).reverse

/-- One rendered history line: `\nROLE: content`. -/
def renderMessage (m : ChatMessage) : String :=
  "\n" ++ roleUpper m.role ++ ": " ++ m.content

/-- The conversation-history block appended by `formatPrompt` when the
history is non-empty. -/
def historySegment (msgs : List ChatMessage) : String :=
  if 0 < msgs.length then
    "\n\nConversation history (most recent first):"
      ++ String.join ((recentMessages msgs).map renderMessage)
  else ""

/-- `formatPrompt` of puterService.ts: base persona instructions, the
age-group modifier, the detected-state block, the history block, then the
new user message and the assistant cue, in this order. -/
def formatPrompt (p : PromptParams) : String :=
  DEFAULT_SYSTEM_MESSAGE
    ++ ageSegment p.ageGroup
    ++ detectedSegment p.detected
    ++ historySegment p.previousMessages
    ++ "\n\nUSER: " ++ p.message ++ "\n\nASSISTANT:"

/-- `API_TIMEOUT` of puterService.ts, in milliseconds. -/
def API_TIMEOUT : ℕ := 15000

/-- The behaviour of one `window.puter.ai.chat(prompt)` invocation: it
resolves with a response at some time, rejects (or throws) at some time, or
never settles. -/
inductive ChatBehavior where
  | resolvesAt (t : ℕ) (r : PuterAIResponse)
  | rejectsAt (t : ℕ)
  | pending

/-- The fixed fallback response returned by `callPuterAI` from its catch
branch. -/
def FALLBACK_RESPONSE : PuterAIResponse :=
  ⟨⟨"I'm having trouble connecting right now. Could you please try again in a moment?",
    "assistant"⟩⟩

/-- The `Promise.race` of the API call against the `API_TIMEOUT` timer,
together with the surrounding try/catch: a response that arrives before the
timer wins; a rejection or a timeout lands in the catch branch, which
returns the fixed fallback response. -/
def raceWithTimeout (b : ChatBehavior) : PuterAIResponse :=
  match b with
  | ChatBehavior.resolvesAt t r => if t < API_TIMEOUT then r else FALLBACK_RESPONSE
  | ChatBehavior.rejectsAt _ => FALLBACK_RESPONSE
  | ChatBehavior.pending => FALLBACK_RESPONSE

/-- `callPuterAI` of puterService.ts: throws (modelled as `Except.error`)
when `window.puter.ai.chat` is absent; otherwise formats the prompt and
races the chat call against the timeout, all errors becoming the fixed
fallback response. `chat` gives the behaviour of the underlying endpoint on
each prompt. -/
def callPuterAI (available : Bool) (chat : String → ChatBehavior)
    (params : PromptParams) : Except String PuterAIResponse :=
  if available then Except.ok (raceWithTimeout (chat (formatPrompt params)))
  else Except.error "Puter.js AI API not available"

/-- The fixed fallback string returned by the catch branch of
`getEmotionalSupportResponse`. -/
def SUPPORT_FALLBACK : String :=
  "I'm here to listen and support you, but I'm having some trouble processing right now. Could you please share your thoughts again?"

/-- `getEmotionalSupportResponse` of puterService.ts: wraps `callPuterAI`
and returns the response's message content, or the fixed support fallback
if the call threw. -/
def getEmotionalSupportResponse (available : Bool) (chat : String → ChatBehavior)
    (message : String) (emotion : Option Emotion) (vocalTone : Option VocalTone)
    (ageGroup : AgeGroup) (previousMessages : List ChatMessage) : String :=
  match callPuterAI available chat ⟨message, ⟨emotion, vocalTone⟩, ageGroup, previousMessages⟩ with
  | Except.ok r => r.message.content
  | Except.error _ => SUPPORT_FALLBACK

/-! ### Claims about the remote completion client and the context builder -/

/-- C3: with the chat endpoint present, `callPuterAI` resolves to the fixed
fallback response when the underlying chat call rejects, never settles, or
does not resolve within the 15000 ms timeout; when the chat call resolves
first, its value is returned. -/
theorem claim_C3_timeout_fallback :
    ∀ (chat : String → ChatBehavior) (params : PromptParams) (t : ℕ)
      (r : PuterAIResponse),
      (chat (formatPrompt params) = ChatBehavior.rejectsAt t →
        callPuterAI true chat params = Except.ok FALLBACK_RESPONSE) ∧
      (chat (formatPrompt params) = ChatBehavior.pending →
        callPuterAI true chat params = Except.ok FALLBACK_RESPONSE) ∧
      (chat (formatPrompt params) = ChatBehavior.resolvesAt t r → API_TIMEOUT ≤ t →
        callPuterAI true chat params = Except.ok FALLBACK_RESPONSE) ∧
      (chat (formatPrompt params) = ChatBehavior.resolvesAt t r → t < API_TIMEOUT →
        callPuterAI true chat params = Except.ok r) := by
  intro chat params t r
  refine ⟨?_, ?_, ?_, ?_⟩
  · intro hb
    simp [callPuterAI, raceWithTimeout, hb]
  · intro hb
    simp [callPuterAI, raceWithTimeout, hb]
  · intro hb ht
    simp [callPuterAI, raceWithTimeout, hb, Nat.not_lt.mpr ht]
  · intro hb ht
    simp [callPuterAI, raceWithTimeout, hb, ht]

/-- Witness for C3: a never-settling call, an early rejection, and a late
resolution all yield the fixed fallback; an early resolution yields its own
value. -/
theorem claim_C3_timeout_fallback_witness :
    callPuterAI true (fun _ => ChatBehavior.pending)
        ⟨"Hello", ⟨none, none⟩, AgeGroup.adults, []⟩ =
      Except.ok FALLBACK_RESPONSE ∧
    callPuterAI true (fun _ => ChatBehavior.rejectsAt 5)
        ⟨"Hello", ⟨none, none⟩, AgeGroup.adults, []⟩ =
      Except.ok FALLBACK_RESPONSE ∧
    callPuterAI true (fun _ => ChatBehavior.resolvesAt 20000 ⟨⟨"Hi.", "assistant"⟩⟩)
        ⟨"Hello", ⟨none, none⟩, AgeGroup.adults, []⟩ =
      Except.ok FALLBACK_RESPONSE ∧
    callPuterAI true (fun _ => ChatBehavior.resolvesAt 100 ⟨⟨"Hi.", "assistant"⟩⟩)
        ⟨"Hello", ⟨none, none⟩, AgeGroup.adults, []⟩ =
      Except.ok ⟨⟨"Hi.", "assistant"⟩⟩ :=
  ⟨(claim_C3_timeout_fallback (fun _ => ChatBehavior.pending)
      ⟨"Hello", ⟨none, none⟩, AgeGroup.adults, []⟩ 0 ⟨⟨"Hi.", "assistant"⟩⟩).2.1 rfl,
   (claim_C3_timeout_fallback (fun _ => ChatBehavior.rejectsAt 5)
      ⟨"Hello", ⟨none, none⟩, AgeGroup.adults, []⟩ 5 ⟨⟨"Hi.", "assistant"⟩⟩).1 rfl,
   (claim_C3_timeout_fallback (fun _ => ChatBehavior.resolvesAt 20000 ⟨⟨"Hi.", "assistant"⟩⟩)
      ⟨"Hello", ⟨none, none⟩, AgeGroup.adults, []⟩ 20000 ⟨⟨"Hi.", "assistant"⟩⟩).2.2.1
     rfl (by decide),
   (claim_C3_timeout_fallback (fun _ => ChatBehavior.resolvesAt 100 ⟨⟨"Hi.", "assistant"⟩⟩)
      ⟨"Hello", ⟨none, none⟩, AgeGroup.adults, []⟩ 100 ⟨⟨"Hi.", "assistant"⟩⟩).2.2.2
     rfl (by decide)⟩

/-- C4: for a history longer than 10 entries, exactly the most recent 10 are
included, in most-recent-first order (the i-th rendered entry is the
(i+1)-most-recent history entry), each rendered as a `ROLE: content` line;
the adults age group appends no modifier segment, the children age group
appends the children-specific modifier text. -/
theorem claim_C4_context_builder :
    ∀ msgs : List ChatMessage, 10 < msgs.length →
      ((recentMessages msgs).length = 10 ∧
        (∀ i : ℕ, i < 10 → (recentMessages msgs)[i]? = msgs[msgs.length - 1 - i]?) ∧
        historySegment msgs =
          "\n\nConversation history (most recent first):"
            ++ String.join ((recentMessages msgs).map renderMessage)) ∧
      (∀ (message : String) (d : DetectedState),
        formatPrompt ⟨message, d, AgeGroup.adults, msgs⟩ =
          DEFAULT_SYSTEM_MESSAGE ++ detectedSegment d ++ historySegment msgs
            ++ "\n\nUSER: " ++ message ++ "\n\nASSISTANT:" ∧
        formatPrompt ⟨message, d, AgeGroup.children, msgs⟩ =
          DEFAULT_SYSTEM_MESSAGE ++ CHILDREN_GUIDANCE ++ detectedSegment d
            ++ historySegment msgs ++ "\n\nUSER: " ++ message ++ "\n\nASSISTANT:") := by
  intro msgs hlen
  have hd : (msgs.drop (msgs.length - 10)).length = 10 := by
    rw [List.length_drop]; omega
  refine ⟨⟨?_, ?_, ?_⟩, ?_⟩
  · rw [recentMessages, List.length_reverse]
    exact hd
  · intro i hi
    rw [recentMessages, List.getElem?_reverse (by rw [hd]; exact hi), hd,
      List.getElem?_drop]
    congr 1
    omega
  · rw [historySegment, if_pos (by omega)]
  · intro message d
    constructor
    · simp only [formatPrompt, ageSegment]
      rw [String.append_empty]
    · rfl

/-- A twelve-entry conversation history used to witness the context-builder
claim. -/
def sampleHistory : List ChatMessage :=
  [⟨Role.user, "m1"⟩, ⟨Role.assistant, "m2"⟩, ⟨Role.user, "m3"⟩,
   ⟨Role.assistant, "m4"⟩, ⟨Role.user, "m5"⟩, ⟨Role.assistant, "m6"⟩,
   ⟨Role.user, "m7"⟩, ⟨Role.assistant, "m8"⟩, ⟨Role.user, "m9"⟩,
   ⟨Role.assistant, "m10"⟩, ⟨Role.user, "m11"⟩, ⟨Role.assistant, "m12"⟩]

/-- Witness for C4 on a twelve-entry history: ten entries are rendered, the
first rendered entry is the most recent one, and the children prompt carries
the children modifier. -/
theorem claim_C4_context_builder_witness :
    (recentMessages sampleHistory).length = 10 ∧
    (recentMessages sampleHistory)[0]? = sampleHistory[11]? ∧
    formatPrompt ⟨"Hello", ⟨none, none⟩, AgeGroup.children, sampleHistory⟩ =
      DEFAULT_SYSTEM_MESSAGE ++ CHILDREN_GUIDANCE ++ detectedSegment ⟨none, none⟩
        ++ historySegment sampleHistory ++ "\n\nUSER: " ++ "Hello" ++ "\n\nASSISTANT:" :=
  ⟨(claim_C4_context_builder sampleHistory (by decide)).1.1,
   (claim_C4_context_builder sampleHistory (by decide)).1.2.1 0 (by decide),
   ((claim_C4_context_builder sampleHistory (by decide)).2 "Hello" ⟨none, none⟩).2⟩

/-- C8: when `window.puter.ai.chat` is absent, `callPuterAI` raises the
availability error internally, and `getEmotionalSupportResponse` converts it
into the fixed support fallback string, so the session receives a fixed
fallback rather than an error. -/
theorem claim_C8_unavailable_fallback :
    ∀ (chat : String → ChatBehavior) (message : String) (emotion : Option Emotion)
      (vocalTone : Option VocalTone) (ageGroup : AgeGroup)
      (previousMessages : List ChatMessage),
      callPuterAI false chat ⟨message, ⟨emotion, vocalTone⟩, ageGroup, previousMessages⟩ =
        Except.error "Puter.js AI API not available" ∧
      getEmotionalSupportResponse false chat message emotion vocalTone ageGroup
          previousMessages = SUPPORT_FALLBACK := by
  intro chat message emotion vocalTone ageGroup previousMessages
  exact ⟨rfl, rfl⟩

/-- C9: `getEmotionalSupportResponse` is a total function into strings: for
every input it returns either the content of the response the chat call
resolved with, or the fixed connection-fallback content, or the fixed
support-fallback string. -/
theorem claim_C9_always_string :
    ∀ (available : Bool) (chat : String → ChatBehavior) (message : String)
      (emotion : Option Emotion) (vocalTone : Option VocalTone) (ageGroup : AgeGroup)
      (previousMessages : List ChatMessage),
      (∃ t r, chat (formatPrompt ⟨message, ⟨emotion, vocalTone⟩, ageGroup,
            previousMessages⟩) = ChatBehavior.resolvesAt t r ∧
        getEmotionalSupportResponse available chat message emotion vocalTone ageGroup
            previousMessages = r.message.content) ∨
      getEmotionalSupportResponse available chat message emotion vocalTone ageGroup
          previousMessages = FALLBACK_RESPONSE.message.content ∨
      getEmotionalSupportResponse available chat message emotion vocalTone ageGroup
          previousMessages = SUPPORT_FALLBACK := by
  intro available chat message emotion vocalTone ageGroup previousMessages
  cases available with
  | false => exact Or.inr (Or.inr rfl)
  | true =>
    rcases hb : chat (formatPrompt ⟨message, ⟨emotion, vocalTone⟩, ageGroup,
        previousMessages⟩) with ⟨t, r⟩ | ⟨t⟩ | _
    · by_cases ht : t < API_TIMEOUT
      · refine Or.inl ⟨t, r, rfl, ?_⟩
        simp [getEmotionalSupportResponse, callPuterAI, raceWithTimeout, hb, ht]
      · refine Or.inr (Or.inl ?_)
        simp [getEmotionalSupportResponse, callPuterAI, raceWithTimeout, hb, ht]
    · refine Or.inr (Or.inl ?_)
      simp [getEmotionalSupportResponse, callPuterAI, raceWithTimeout, hb]
    · refine Or.inr (Or.inl ?_)
      simp [getEmotionalSupportResponse, callPuterAI, raceWithTimeout, hb]
